import Mathlib

/-!
Verification of the ghostkeys remapping engine: a shallow embedding of the
ABNT2 position mapper / dead-key state machine (src/mapper.rs), the shared
mode gate (src/state.rs), the platform interceptors (src/platform/windows.rs,
src/platform/linux.rs) and the pause-menu handler of src/main.rs, together
with theorems settling the specification's testable properties.

Rust mutation is modelled by explicit state passing: a method
`fn f(&mut self, x) -> R` becomes `f : State → X → R × State`.
`std::time::Instant` is modelled as a `Nat` millisecond clock passed in
explicitly, and `HashMap` tables as association lists looked up with
`List.lookup` (the Rust code inserts each key once, so the association list
is an exact image of the map).
-/

set_option maxHeartbeats 1000000

/-- Alias for the character type, so that the `VirtualKey.Char` constructor can
carry a character payload under its source name. -/
abbrev RustChar : Type := Char

/-- Virtual key codes for keys the program intercepts (src/mapper.rs `VirtualKey`). -/
inductive VirtualKey where
  | Semicolon
  | Apostrophe
  | LeftBracket
  | RightBracket
  | Backslash
  | Slash
  | Char (c : RustChar)
  | Space
  | Other
deriving DecidableEq

/-- Accent types for dead key handling (src/mapper.rs `AccentType`). -/
inductive AccentType where
  | Tilde
  | Acute
  | Grave
  | Circumflex
deriving DecidableEq

/-- Embeds `AccentType::to_char` from src/mapper.rs. -/
def AccentType.to_char : AccentType → Char
  | AccentType.Tilde => '~'
  | AccentType.Acute => '´'
  | AccentType.Grave => '`'
  | AccentType.Circumflex => '^'

/-- State of the mapper state machine (src/mapper.rs `MapperState`). -/
inductive MapperState where
  | Idle
  | PendingAccent (a : AccentType)
deriving DecidableEq

/-- Action to take after processing a keystroke (src/interceptor.rs `KeyAction`). -/
inductive KeyAction where
  | Pass
  | Suppress
  | Replace (c : Char)
  | ReplaceMultiple (cs : List Char)
deriving DecidableEq

/-- Timeout for the pending accent state, in milliseconds
(src/mapper.rs `ACCENT_TIMEOUT`). -/
def ACCENT_TIMEOUT : Nat := 500

/-- The ABNT2 position mapper (src/mapper.rs `Mapper`): dead-key state,
pending-accent entry time, and the two immutable tables. -/
structure Mapper where
  state : MapperState
  last_accent_time : Option Nat
  position_map : List ((VirtualKey × Bool) × Char)
  accent_combinations : List ((AccentType × Char) × Char)
deriving DecidableEq

/-- The direct position table built by `Mapper::init_position_map`
(src/mapper.rs lines 100-118), in insertion order. -/
def init_position_map : List ((VirtualKey × Bool) × Char) :=
  [ ((VirtualKey.Semicolon, false), 'ç'),
    ((VirtualKey.Semicolon, true), 'Ç'),
    ((VirtualKey.RightBracket, false), '['),
    ((VirtualKey.RightBracket, true), '{'),
    ((VirtualKey.Backslash, false), ']'),
    ((VirtualKey.Backslash, true), '}'),
    ((VirtualKey.Slash, false), ';'),
    ((VirtualKey.Slash, true), ':') ]

/-- The accent combination table built by `Mapper::init_accent_combinations`
(src/mapper.rs lines 121-153), in insertion order. -/
def init_accent_combinations : List ((AccentType × Char) × Char) :=
  [ ((AccentType.Tilde, 'a'), 'ã'),
    ((AccentType.Tilde, 'A'), 'Ã'),
    ((AccentType.Tilde, 'o'), 'õ'),
    ((AccentType.Tilde, 'O'), 'Õ'),
    ((AccentType.Tilde, 'n'), 'ñ'),
    ((AccentType.Tilde, 'N'), 'Ñ'),
    ((AccentType.Acute, 'a'), 'á'),
    ((AccentType.Acute, 'A'), 'Á'),
    ((AccentType.Acute, 'e'), 'é'),
    ((AccentType.Acute, 'E'), 'É'),
    ((AccentType.Acute, 'i'), 'í'),
    ((AccentType.Acute, 'I'), 'Í'),
    ((AccentType.Acute, 'o'), 'ó'),
    ((AccentType.Acute, 'O'), 'Ó'),
    ((AccentType.Acute, 'u'), 'ú'),
    ((AccentType.Acute, 'U'), 'Ú'),
    ((AccentType.Grave, 'a'), 'à'),
    ((AccentType.Grave, 'A'), 'À'),
    ((AccentType.Circumflex, 'a'), 'â'),
    ((AccentType.Circumflex, 'A'), 'Â'),
    ((AccentType.Circumflex, 'e'), 'ê'),
    ((AccentType.Circumflex, 'E'), 'Ê'),
    ((AccentType.Circumflex, 'o'), 'ô'),
    ((AccentType.Circumflex, 'O'), 'Ô') ]

/-- Embeds `Mapper::new` (src/mapper.rs lines 86-96). -/
def Mapper.new : Mapper :=
  { state := MapperState.Idle,
    last_accent_time := none,
    position_map := init_position_map,
    accent_combinations := init_accent_combinations }

/-- Rust `char::to_ascii_uppercase`: shifts only ASCII lowercase letters. -/
def Char.to_ascii_uppercase (c : Char) : Char :=
  if 'a' ≤ c ∧ c ≤ 'z' then Char.ofNat (c.toNat - 32) else c

/-- Rust `char::to_ascii_lowercase`: shifts only ASCII uppercase letters. -/
def Char.to_ascii_lowercase (c : Char) : Char :=
  if 'A' ≤ c ∧ c ≤ 'Z' then Char.ofNat (c.toNat + 32) else c

/-- Embeds `Mapper::get_dead_key_accent` (src/mapper.rs lines 186-196). -/
def Mapper.get_dead_key_accent (key : VirtualKey) (shift : Bool) : Option AccentType :=
  match key, shift with
  | VirtualKey.Apostrophe, false => some AccentType.Tilde
  | VirtualKey.Apostrophe, true => some AccentType.Circumflex
  | VirtualKey.LeftBracket, false => some AccentType.Acute
  | VirtualKey.LeftBracket, true => some AccentType.Grave
  | _, _ => none

/-- Embeds `Mapper::process_idle` (src/mapper.rs lines 167-182); `now` is the value
`Instant::now()` would record on a dead-key trigger. -/
def Mapper.process_idle (m : Mapper) (key : VirtualKey) (shift : Bool) (now : Nat) :
    KeyAction × Mapper :=
  match Mapper.get_dead_key_accent key shift with
  | some accent =>
      (KeyAction.Suppress,
        { m with state := MapperState.PendingAccent accent, last_accent_time := some now })
  | none =>
      match m.position_map.lookup (key, shift) with
      | some output => (KeyAction.Replace output, m)
      | none => (KeyAction.Pass, m)

/-- Embeds `Mapper::process_pending_accent` (src/mapper.rs lines 199-230). -/
def Mapper.process_pending_accent (m : Mapper) (accent : AccentType) (key : VirtualKey)
    (shift : Bool) : KeyAction × Mapper :=
  let m1 := { m with state := MapperState.Idle, last_accent_time := none }
  if key = VirtualKey.Space then
    (KeyAction.Replace accent.to_char, m1)
  else
    match key with
    | VirtualKey.Char c =>
        let char_key := if shift then c.to_ascii_uppercase else c.to_ascii_lowercase
        match m1.accent_combinations.lookup (accent, char_key) with
        | some combined => (KeyAction.Replace combined, m1)
        | none => (KeyAction.ReplaceMultiple [accent.to_char, char_key], m1)
    | _ => (KeyAction.Replace accent.to_char, m1)

/-- Embeds `Mapper::process_key` (src/mapper.rs lines 156-164). -/
def Mapper.process_key (m : Mapper) (key : VirtualKey) (shift : Bool) (now : Nat) :
    KeyAction × Mapper :=
  match m.state with
  | MapperState.Idle => m.process_idle key shift now
  | MapperState.PendingAccent accent => m.process_pending_accent accent key shift

/-- Embeds `Mapper::check_timeout` (src/mapper.rs lines 233-245); `now` is the current
millisecond clock, so `time.elapsed()` is `now - time` (saturating, as `Instant`
is monotone). -/
def Mapper.check_timeout (m : Mapper) (now : Nat) : Option KeyAction × Mapper :=
  match m.state, m.last_accent_time with
  | MapperState.PendingAccent accent, some time =>
      if now - time ≥ ACCENT_TIMEOUT then
        (some (KeyAction.Replace accent.to_char),
          { m with state := MapperState.Idle, last_accent_time := none })
      else (none, m)
  | _, _ => (none, m)

/-- Embeds `Mapper::reset` (src/mapper.rs lines 248-251). -/
def Mapper.reset (m : Mapper) : Mapper :=
  { m with state := MapperState.Idle, last_accent_time := none }

/-- Error taxonomy (src/error.rs `GhostKeysError`). -/
inductive GhostKeysError where
  | HookInstallError (msg : String)
  | HookReleaseError (msg : String)
  | TrayError (msg : String)
  | StateLockPoisoned
  | KeyInjectionError (msg : String)
deriving DecidableEq

/-- Operation mode (src/state.rs `OperationMode`); the `#[default]` is `Active`. -/
inductive OperationMode where
  | Active
  | Passthrough
deriving DecidableEq

/-- The shared application state (src/state.rs `SharedState`): the mutex-guarded
`AppState { mode }` together with the independent atomic exit flag. The pure
embedding has no panics, so the mutex is never poisoned and each accessor is
modelled by its `Ok` path. -/
structure SharedState where
  mode : OperationMode
  exit_flag : Bool
deriving DecidableEq

/-- Embeds `SharedState::new` (src/state.rs lines 42-47): default mode `Active`,
exit flag `false`. -/
def SharedState.new : SharedState :=
  { mode := OperationMode.Active, exit_flag := false }

/-- Embeds `SharedState::get_mode` (src/state.rs lines 50-55), `Ok` path. -/
def SharedState.get_mode (s : SharedState) : OperationMode :=
  s.mode

/-- Embeds `SharedState::set_mode` (src/state.rs lines 58-63), `Ok` path. -/
def SharedState.set_mode (s : SharedState) (mode : OperationMode) : SharedState :=
  { s with mode := mode }

/-- Embeds `SharedState::toggle_mode` (src/state.rs lines 66-78), `Ok` path: flips the
stored mode and returns the new value. -/
def SharedState.toggle_mode (s : SharedState) : OperationMode × SharedState :=
  let newMode :=
    match s.mode with
    | OperationMode.Active => OperationMode.Passthrough
    | OperationMode.Passthrough => OperationMode.Active
  (newMode, { s with mode := newMode })

/-- Embeds `SharedState::signal_exit` (src/state.rs lines 81-83). -/
def SharedState.signal_exit (s : SharedState) : SharedState :=
  { s with exit_flag := true }

/-- Embeds `SharedState::should_exit` (src/state.rs lines 86-88). -/
def SharedState.should_exit (s : SharedState) : Bool :=
  s.exit_flag

/-- State owned by the Windows interceptor and its hook thread
(src/platform/windows.rs): the `running` atomic, the thread-local `MAPPER`
and `HOOK_HANDLE` cells, and the process-wide `GLOBAL_HOOK_HANDLE`. -/
structure WinState where
  running : Bool
  mapper : Option Mapper
  hook_handle : Option Int
  global_hook_handle : Option Int

/-- Embeds `WindowsInterceptor::new` plus the initial thread-local/global cells. -/
def WinState.new : WinState :=
  { running := false, mapper := none, hook_handle := none, global_hook_handle := none }

/-- Embeds `<WindowsInterceptor as KeyboardInterceptor>::start`
(src/platform/windows.rs lines 228-255). `install` is the outcome of
`SetWindowsHookExW` inside `install_hook`, outside this program's control.
The `SharedState` argument is ignored by the source (`_state`). -/
def WindowsInterceptor.start (s : WinState) (_state : SharedState)
    (install : Except String Int) : Except GhostKeysError Unit × WinState :=
  if s.running then
    (Except.error (GhostKeysError.HookInstallError "Interceptor already running"), s)
  else
    let s1 := { s with mapper := some Mapper.new }
    match install with
    | Except.error e =>
        (Except.error (GhostKeysError.HookInstallError ("SetWindowsHookExW failed: " ++ e)), s1)
    | Except.ok hook =>
        (Except.ok (),
          { s1 with
            hook_handle := some hook,
            global_hook_handle := some hook,
            running := true })

/-- Embeds `<WindowsInterceptor as KeyboardInterceptor>::stop`
(src/platform/windows.rs lines 257-283). -/
def WindowsInterceptor.stop (s : WinState) : Except GhostKeysError Unit × WinState :=
  if !s.running then
    (Except.ok (), s)
  else
    (Except.ok (),
      { s with
        hook_handle := none,
        global_hook_handle := none,
        mapper := none,
        running := false })

/-- Embeds `<WindowsInterceptor as KeyboardInterceptor>::is_running`
(src/platform/windows.rs lines 285-287). -/
def WindowsInterceptor.is_running (s : WinState) : Bool :=
  s.running

/-- State of the Linux interceptor (src/platform/linux.rs `LinuxInterceptor`):
just the `running` atomic. -/
structure LinuxState where
  running : Bool
deriving DecidableEq

/-- Embeds `LinuxInterceptor::new` (src/platform/linux.rs lines 22-26). -/
def LinuxState.new : LinuxState :=
  { running := false }

/-- Embeds `<LinuxInterceptor as KeyboardInterceptor>::start`
(src/platform/linux.rs lines 36-49). -/
def LinuxInterceptor.start (s : LinuxState) (_state : SharedState) :
    Except GhostKeysError Unit × LinuxState :=
  if s.running then
    (Except.error (GhostKeysError.HookInstallError "Interceptor already running"), s)
  else
    (Except.ok (), { s with running := true })

/-- Embeds `<LinuxInterceptor as KeyboardInterceptor>::stop`
(src/platform/linux.rs lines 51-60). -/
def LinuxInterceptor.stop (s : LinuxState) : Except GhostKeysError Unit × LinuxState :=
  if !s.running then
    (Except.ok (), s)
  else
    (Except.ok (), { s with running := false })

/-- Embeds `<LinuxInterceptor as KeyboardInterceptor>::is_running`
(src/platform/linux.rs lines 62-64). -/
def LinuxInterceptor.is_running (s : LinuxState) : Bool :=
  s.running

/-- Embeds `vk_to_virtual_key` (src/platform/windows.rs lines 63-75): Windows virtual
key code to `VirtualKey`; `0x41..=0x5A` becomes `Char` of the same code point. -/
def vk_to_virtual_key (vk : Nat) : VirtualKey :=
  if vk = 0xBA then VirtualKey.Semicolon
  else if vk = 0xDE then VirtualKey.Apostrophe
  else if vk = 0xDB then VirtualKey.LeftBracket
  else if vk = 0xDD then VirtualKey.RightBracket
  else if vk = 0xDC then VirtualKey.Backslash
  else if vk = 0xBF then VirtualKey.Slash
  else if vk = 0x20 then VirtualKey.Space
  else if 0x41 ≤ vk ∧ vk ≤ 0x5A then VirtualKey.Char (Char.ofNat vk)
  else VirtualKey.Other

/-- What the hook callback does with the event: return
`CallNextHookEx` (forward to the next handler) or `LRESULT(1)` (swallow the
original), having first injected the listed characters via `SendInput`. -/
inductive HookDecision where
  | Forward
  | Swallow (injected : List Char)
deriving DecidableEq

/-- The inputs the OS hands `low_level_keyboard_proc` for one event: the hook
`code`, whether `wparam` is `WM_KEYDOWN`/`WM_SYSKEYDOWN`, the
`LLKHF_INJECTED` bit of `KBDLLHOOKSTRUCT.flags`, `vkCode`, and the result of
`is_shift_pressed()`. -/
structure KeyEventInput where
  code : Int
  is_key_down : Bool
  injected : Bool
  vk : Nat
  shift : Bool

/-- The whole-process state the C6/C7 claims range over: the Mode Gate
(`SharedState`), main.rs's local `is_active` atomic, windows.rs's
`GLOBAL_PAUSED` atomic, and the hook thread's `Mapper`. -/
structure SysState where
  shared : SharedState
  is_active : Bool
  paused : Bool
  mapper : Mapper

/-- The process state right after startup: `SharedState::new`, `is_active`
initialised to `true` (src/main.rs line 59), `GLOBAL_PAUSED` initialised to
`false` (src/platform/windows.rs line 37), and the hook thread's fresh
`Mapper::new` installed by `start`. -/
def SysState.init : SysState :=
  { shared := SharedState.new, is_active := true, paused := false, mapper := Mapper.new }

/-- The pause menu handler of src/main.rs (lines 138-167), restricted to the
state it mutates: it flips `is_active` and calls `state.set_mode`
(`Passthrough` when pausing, `Active` when resuming). It calls neither
`set_paused` nor `Mapper::reset`; the icon and menu-text updates are
out of scope. -/
def pause_menu_click (s : SysState) : SysState :=
  if s.is_active then
    { s with is_active := false, shared := s.shared.set_mode OperationMode.Passthrough }
  else
    { s with is_active := true, shared := s.shared.set_mode OperationMode.Active }

/-- Embeds `low_level_keyboard_proc` (src/platform/windows.rs lines 131-196) acting on
the process state, with the hook thread's `MAPPER` cell holding `s.mapper`
(the running system installs it in `start`); `now` is the millisecond clock
for `Instant::now()`. -/
def low_level_keyboard_proc (s : SysState) (e : KeyEventInput) (now : Nat) :
    HookDecision × SysState :=
  if e.code < 0 then (HookDecision.Forward, s)
  else if s.paused then (HookDecision.Forward, s)
  else if e.injected then (HookDecision.Forward, s)
  else if !e.is_key_down then (HookDecision.Forward, s)
  else
    let virtual_key := vk_to_virtual_key e.vk
    if virtual_key = VirtualKey.Other then (HookDecision.Forward, s)
    else
      let r := s.mapper.process_key virtual_key e.shift now
      let s1 := { s with mapper := r.2 }
      match r.1 with
      | KeyAction.Pass => (HookDecision.Forward, s1)
      | KeyAction.Suppress => (HookDecision.Swallow [], s1)
      | KeyAction.Replace c => (HookDecision.Swallow [c], s1)
      | KeyAction.ReplaceMultiple cs => (HookDecision.Swallow cs, s1)

/-- A mapper with the default tables whose dead-key state machine is in
`PendingAccent accent`, entered at time `t` — the state a dead-key trigger
leaves `Mapper::new` in. -/
def pending_mapper (accent : AccentType) (t : Nat) : Mapper :=
  { Mapper.new with
    state := MapperState.PendingAccent accent,
    last_accent_time := some t }

/-- The case normalisation applied in `Mapper::process_pending_accent`
(src/mapper.rs lines 210-216): uppercase when shift is held, else lowercase. -/
def normalize_by_shift (shift : Bool) (c : Char) : Char :=
  if shift then c.to_ascii_uppercase else c.to_ascii_lowercase

/-- The concrete pending mapper used by witnesses: pending `Tilde` entered at
time 0. -/
def mPendTilde : Mapper := pending_mapper AccentType.Tilde 0

/-- C1: in `PendingAccent accent` with the default tables, `process_key` on
`Char c` normalises `c` by the shift flag, returns `Replace combined` when
`(accent, normalized)` is in the combination table and
`ReplaceMultiple [accent glyph, normalized]` (glyph first) otherwise, and in
both cases the state returns to `Idle`. -/
theorem c1_pending_accent_char (accent : AccentType) (c : Char) (shift : Bool)
    (t now : Nat) :
    ((pending_mapper accent t).process_key (VirtualKey.Char c) shift now).1
      = (match init_accent_combinations.lookup (accent, normalize_by_shift shift c) with
         | some combined => KeyAction.Replace combined
         | none => KeyAction.ReplaceMultiple [accent.to_char, normalize_by_shift shift c]) ∧
    ((pending_mapper accent t).process_key (VirtualKey.Char c) shift now).2.state
      = MapperState.Idle := by
  have hkey : (VirtualKey.Char c = VirtualKey.Space) = False := by simp
  constructor
  · show ((pending_mapper accent t).process_pending_accent accent
        (VirtualKey.Char c) shift).1 = _
    unfold Mapper.process_pending_accent
    simp only [hkey, if_false]
    cases hl : init_accent_combinations.lookup (accent, normalize_by_shift shift c) with
    | none =>
        simp only [pending_mapper, Mapper.new, normalize_by_shift] at hl ⊢
        simp [hl]
    | some combined =>
        simp only [pending_mapper, Mapper.new, normalize_by_shift] at hl ⊢
        simp [hl]
  · show ((pending_mapper accent t).process_pending_accent accent
        (VirtualKey.Char c) shift).2.state = _
    unfold Mapper.process_pending_accent
    simp only [hkey, if_false]
    cases hl : ((pending_mapper accent t).accent_combinations).lookup
        (accent, if shift then c.to_ascii_uppercase else c.to_ascii_lowercase) with
    | none => simp [hl]
    | some combined => simp [hl]

/-- C2: from `Idle` with the default tables, each of the four positional keys
crossed with both shift values yields `Replace` of the exact documented
character, and the state stays `Idle`. -/
theorem c2_position_mapping (now : Nat) :
    (Mapper.new.process_key VirtualKey.Semicolon false now).1 = KeyAction.Replace 'ç' ∧
    (Mapper.new.process_key VirtualKey.Semicolon false now).2.state = MapperState.Idle ∧
    (Mapper.new.process_key VirtualKey.Semicolon true now).1 = KeyAction.Replace 'Ç' ∧
    (Mapper.new.process_key VirtualKey.Semicolon true now).2.state = MapperState.Idle ∧
    (Mapper.new.process_key VirtualKey.RightBracket false now).1 = KeyAction.Replace '[' ∧
    (Mapper.new.process_key VirtualKey.RightBracket false now).2.state = MapperState.Idle ∧
    (Mapper.new.process_key VirtualKey.RightBracket true now).1 = KeyAction.Replace '{' ∧
    (Mapper.new.process_key VirtualKey.RightBracket true now).2.state = MapperState.Idle ∧
    (Mapper.new.process_key VirtualKey.Backslash false now).1 = KeyAction.Replace ']' ∧
    (Mapper.new.process_key VirtualKey.Backslash false now).2.state = MapperState.Idle ∧
    (Mapper.new.process_key VirtualKey.Backslash true now).1 = KeyAction.Replace '}' ∧
    (Mapper.new.process_key VirtualKey.Backslash true now).2.state = MapperState.Idle ∧
    (Mapper.new.process_key VirtualKey.Slash false now).1 = KeyAction.Replace ';' ∧
    (Mapper.new.process_key VirtualKey.Slash false now).2.state = MapperState.Idle ∧
    (Mapper.new.process_key VirtualKey.Slash true now).1 = KeyAction.Replace ':' ∧
    (Mapper.new.process_key VirtualKey.Slash true now).2.state = MapperState.Idle :=
  ⟨rfl, rfl, rfl, rfl, rfl, rfl, rfl, rfl, rfl, rfl, rfl, rfl, rfl, rfl, rfl, rfl⟩

/-- C3: from `Idle`, each of the two dead-key trigger keys crossed with both
shift values yields `Suppress`, and the state becomes `PendingAccent` with the
documented accent. -/
theorem c3_dead_key_triggers (now : Nat) :
    (Mapper.new.process_key VirtualKey.Apostrophe false now).1 = KeyAction.Suppress ∧
    (Mapper.new.process_key VirtualKey.Apostrophe false now).2.state
      = MapperState.PendingAccent AccentType.Tilde ∧
    (Mapper.new.process_key VirtualKey.Apostrophe true now).1 = KeyAction.Suppress ∧
    (Mapper.new.process_key VirtualKey.Apostrophe true now).2.state
      = MapperState.PendingAccent AccentType.Circumflex ∧
    (Mapper.new.process_key VirtualKey.LeftBracket false now).1 = KeyAction.Suppress ∧
    (Mapper.new.process_key VirtualKey.LeftBracket false now).2.state
      = MapperState.PendingAccent AccentType.Acute ∧
    (Mapper.new.process_key VirtualKey.LeftBracket true now).1 = KeyAction.Suppress ∧
    (Mapper.new.process_key VirtualKey.LeftBracket true now).2.state
      = MapperState.PendingAccent AccentType.Grave :=
  ⟨rfl, rfl, rfl, rfl, rfl, rfl, rfl, rfl⟩

/-- Helper: `process_pending_accent` always leaves `Idle` with the timestamp
cleared, whatever the key. -/
theorem process_pending_accent_resets (m : Mapper) (accent : AccentType)
    (key : VirtualKey) (shift : Bool) :
    (m.process_pending_accent accent key shift).2.state = MapperState.Idle ∧
    (m.process_pending_accent accent key shift).2.last_accent_time = none := by
  cases key <;> simp only [Mapper.process_pending_accent] <;>
    try exact ⟨rfl, rfl⟩
  constructor <;> (split <;> (try split) <;> simp)

/-- C4: from `PendingAccent accent`, every `process_key` call — any key at all —
leaves the mapper in `Idle` with the pending timestamp cleared, and a
`check_timeout` call that fires likewise leaves `Idle` with the timestamp
cleared, so two dead keys never stack. -/
theorem c4_pending_accent_cleared (m : Mapper) (accent : AccentType)
    (key : VirtualKey) (shift : Bool) (now now2 : Nat)
    (h : m.state = MapperState.PendingAccent accent) :
    ((m.process_key key shift now).2.state = MapperState.Idle ∧
      (m.process_key key shift now).2.last_accent_time = none) ∧
    ((m.check_timeout now2).1.isSome = true →
      (m.check_timeout now2).2.state = MapperState.Idle ∧
      (m.check_timeout now2).2.last_accent_time = none) := by
  constructor
  · have hp : m.process_key key shift now = m.process_pending_accent accent key shift := by
      unfold Mapper.process_key
      rw [h]
    rw [hp]
    exact process_pending_accent_resets m accent key shift
  · intro hf
    rcases hst : m.state with _ | a2
    · rw [Mapper.check_timeout, hst] at hf
      simp at hf
    · rcases ht : m.last_accent_time with _ | time
      · rw [Mapper.check_timeout, hst, ht] at hf
        simp at hf
      · by_cases hge : ACCENT_TIMEOUT ≤ now2 - time
        · rw [Mapper.check_timeout, hst, ht]
          simp [hge]
        · rw [Mapper.check_timeout, hst, ht] at hf
          simp [hge] at hf

/-- Witness for C4 at a concrete pending mapper, with `Other` as the key and a
firing timeout call. -/
theorem c4_pending_accent_cleared_witness :
    ((mPendTilde.process_key VirtualKey.Other false 7).2.state = MapperState.Idle ∧
      (mPendTilde.process_key VirtualKey.Other false 7).2.last_accent_time = none) ∧
    ((mPendTilde.check_timeout 600).2.state = MapperState.Idle ∧
      (mPendTilde.check_timeout 600).2.last_accent_time = none) :=
  ⟨(c4_pending_accent_cleared mPendTilde AccentType.Tilde VirtualKey.Other false 7 600 rfl).1,
    (c4_pending_accent_cleared mPendTilde AccentType.Tilde VirtualKey.Other false 7 600 rfl).2
      (by decide)⟩

/-- C5: `check_timeout` at clock `now`, for a mapper whose accent was recorded
at time `t`: with `PendingAccent` and at least 500 ms elapsed it returns
`Replace` of the accent glyph, resets to `Idle`, and an immediately following
call returns no action; with less than 500 ms elapsed, or from `Idle`, it
returns no action and leaves the mapper unchanged. -/
theorem c5_check_timeout (m : Mapper) (a : AccentType) (t now now2 : Nat) :
    (m.state = MapperState.PendingAccent a → m.last_accent_time = some t →
      ACCENT_TIMEOUT ≤ now - t →
      (m.check_timeout now).1 = some (KeyAction.Replace a.to_char) ∧
      (m.check_timeout now).2.state = MapperState.Idle ∧
      ((m.check_timeout now).2.check_timeout now2).1 = none) ∧
    (m.state = MapperState.PendingAccent a → m.last_accent_time = some t →
      now - t < ACCENT_TIMEOUT → m.check_timeout now = (none, m)) ∧
    (m.state = MapperState.Idle → m.check_timeout now = (none, m)) := by
  refine ⟨?_, ?_, ?_⟩
  · intro hst ht hge
    have h1 : m.check_timeout now =
        (some (KeyAction.Replace a.to_char),
          { m with state := MapperState.Idle, last_accent_time := none }) := by
      rw [Mapper.check_timeout, hst, ht]
      simp [ge_iff_le, hge]
    rw [h1]
    refine ⟨rfl, rfl, ?_⟩
    simp [Mapper.check_timeout]
  · intro hst ht hlt
    rw [Mapper.check_timeout, hst, ht]
    simp [Nat.not_le.mpr hlt]
  · intro hst
    rw [Mapper.check_timeout, hst]

/-- Witness for C5 at concrete mappers and clocks: a firing call at 600 ms, a
non-firing call at 100 ms, and a call from `Idle`. -/
theorem c5_check_timeout_witness :
    ((mPendTilde.check_timeout 600).1 = some (KeyAction.Replace '~') ∧
      (mPendTilde.check_timeout 600).2.state = MapperState.Idle ∧
      ((mPendTilde.check_timeout 600).2.check_timeout 601).1 = none) ∧
    mPendTilde.check_timeout 100 = (none, mPendTilde) ∧
    Mapper.new.check_timeout 600 = (none, Mapper.new) :=
  ⟨(c5_check_timeout mPendTilde AccentType.Tilde 0 600 601).1 rfl rfl (by decide),
    (c5_check_timeout mPendTilde AccentType.Tilde 0 100 0).2.1 rfl rfl (by decide),
    (c5_check_timeout Mapper.new AccentType.Tilde 0 600 0).2.2 rfl⟩

/-- The OS inputs for a genuine (non-injected) key-down of the given Windows
virtual key code, with the given shift state and hook code 0. -/
def key_down_event (vk : Nat) (shift : Bool) : KeyEventInput :=
  { code := 0, is_key_down := true, injected := false, vk := vk, shift := shift }

/-- C6 (failing input): press the apostrophe key while active — the hook
suppresses it and the mapper enters `PendingAccent Tilde` — and then click the
tray Pause item. The handler sets the Mode Gate to `Passthrough` but calls
neither `set_paused` nor `Mapper::reset` (which has no callers anywhere in the
program), so the pending accent survives the pause: the claimed invariant
"mode `Passthrough` implies mapper `Idle`" is violated in a reachable state. -/
theorem c6_pending_accent_survives_pause :
    (pause_menu_click
        (low_level_keyboard_proc SysState.init (key_down_event 0xDE false) 0).2).shared.get_mode
      = OperationMode.Passthrough ∧
    (pause_menu_click
        (low_level_keyboard_proc SysState.init (key_down_event 0xDE false) 0).2).mapper.state
      = MapperState.PendingAccent AccentType.Tilde := by
  constructor <;> decide

/-- C7 (failing input): click the tray Pause item — the Mode Gate now holds
`Passthrough` — and then press the semicolon key (vk `0xBA`, key-down, not
injected). The hook's short-circuit reads `GLOBAL_PAUSED`, which the pause
handler never sets (it calls `state.set_mode`, and `start` ignores the
`SharedState` it is given), so the callback still runs the Mapper and injects
`ç` instead of forwarding the event unmodified. -/
theorem c7_callback_ignores_mode_gate :
    (pause_menu_click SysState.init).shared.get_mode = OperationMode.Passthrough ∧
    (pause_menu_click SysState.init).paused = false ∧
    (low_level_keyboard_proc (pause_menu_click SysState.init)
        (key_down_event 0xBA false) 0).1
      = HookDecision.Swallow ['ç'] := by
  refine ⟨rfl, rfl, ?_⟩
  decide

/-- C8: on both platform interceptors, `start` while already running fails with
`HookInstallError`, and `stop` while not running returns success (`stop` is
idempotent). -/
theorem c8_start_stop_lifecycle (w w2 : WinState) (gate : SharedState)
    (install : Except String Int) (l l2 : LinuxState)
    (hw : w.running = true) (hw2 : w2.running = false)
    (hl : l.running = true) (hl2 : l2.running = false) :
    (WindowsInterceptor.start w gate install).1
      = Except.error (GhostKeysError.HookInstallError "Interceptor already running") ∧
    (WindowsInterceptor.stop w2).1 = Except.ok () ∧
    (LinuxInterceptor.start l gate).1
      = Except.error (GhostKeysError.HookInstallError "Interceptor already running") ∧
    (LinuxInterceptor.stop l2).1 = Except.ok () := by
  refine ⟨?_, ?_, ?_, ?_⟩
  · simp [WindowsInterceptor.start, hw]
  · simp [WindowsInterceptor.stop, hw2]
  · simp [LinuxInterceptor.start, hl]
  · simp [LinuxInterceptor.stop, hl2]

/-- A Windows interceptor state that is currently running, with the hook
handle installed. -/
def winRunning : WinState :=
  { running := true, mapper := some Mapper.new,
    hook_handle := some 1, global_hook_handle := some 1 }

/-- Witness for C8 at concrete interceptor states: a running Windows
interceptor, a fresh (stopped) one, and the Linux counterparts. -/
theorem c8_start_stop_lifecycle_witness :
    (WindowsInterceptor.start winRunning SharedState.new (Except.ok 2)).1
      = Except.error (GhostKeysError.HookInstallError "Interceptor already running") ∧
    (WindowsInterceptor.stop WinState.new).1 = Except.ok () ∧
    (LinuxInterceptor.start { running := true } SharedState.new).1
      = Except.error (GhostKeysError.HookInstallError "Interceptor already running") ∧
    (LinuxInterceptor.stop LinuxState.new).1 = Except.ok () :=
  c8_start_stop_lifecycle winRunning WinState.new SharedState.new (Except.ok 2)
    { running := true } LinuxState.new rfl rfl rfl rfl

/-- C9: `toggle_mode` flips the stored mode between `Active` and `Passthrough`
and returns the new mode; from `Active`, the first call returns `Passthrough`
and a second call returns `Active`. -/
theorem c9_toggle_mode_round_trip (s s2 : SharedState)
    (h : s.get_mode = OperationMode.Active) :
    (s2.toggle_mode).2.mode = (s2.toggle_mode).1 ∧
    (s2.toggle_mode).1 = (match s2.mode with
      | OperationMode.Active => OperationMode.Passthrough
      | OperationMode.Passthrough => OperationMode.Active) ∧
    (s.toggle_mode).1 = OperationMode.Passthrough ∧
    ((s.toggle_mode).2.toggle_mode).1 = OperationMode.Active := by
  have hm : s.mode = OperationMode.Active := h
  refine ⟨rfl, rfl, ?_, ?_⟩ <;> simp [SharedState.toggle_mode, hm]

/-- Witness for C9 at the freshly created shared state, whose mode is
`Active`. -/
theorem c9_toggle_mode_round_trip_witness :
    (SharedState.new.toggle_mode).2.mode = (SharedState.new.toggle_mode).1 ∧
    (SharedState.new.toggle_mode).1 = (match SharedState.new.mode with
      | OperationMode.Active => OperationMode.Passthrough
      | OperationMode.Passthrough => OperationMode.Active) ∧
    (SharedState.new.toggle_mode).1 = OperationMode.Passthrough ∧
    ((SharedState.new.toggle_mode).2.toggle_mode).1 = OperationMode.Active :=
  c9_toggle_mode_round_trip SharedState.new SharedState.new rfl

/-- C10: on a fresh `SharedState`, `should_exit` is `false`; after any
`signal_exit` it is `true`; and every state-changing operation of the public
interface (`set_mode`, `toggle_mode`, `signal_exit`) preserves a set exit flag
(`get_mode` and `should_exit` are pure reads and return no new state), so the
exit signal is one-way. -/
theorem c10_exit_flag_one_way (s s2 : SharedState) (mode : OperationMode)
    (h : s.should_exit = true) :
    SharedState.new.should_exit = false ∧
    (s2.signal_exit).should_exit = true ∧
    (s.set_mode mode).should_exit = true ∧
    ((s.toggle_mode).2).should_exit = true ∧
    (s.signal_exit).should_exit = true :=
  ⟨rfl, rfl, h, h, rfl⟩

/-- Witness for C10 at the fresh state after one `signal_exit`. -/
theorem c10_exit_flag_one_way_witness :
    SharedState.new.should_exit = false ∧
    (SharedState.new.signal_exit).should_exit = true ∧
    ((SharedState.new.signal_exit).set_mode OperationMode.Active).should_exit = true ∧
    (((SharedState.new.signal_exit).toggle_mode).2).should_exit = true ∧
    ((SharedState.new.signal_exit).signal_exit).should_exit = true :=
  c10_exit_flag_one_way (SharedState.new.signal_exit) SharedState.new OperationMode.Active rfl
